import Mathlib

/-!
Verification of the Prabisha UI scaffolding CLI.

Shallow embedding of the scaffolding CLI (`packages/cli/src`): the
package-manager detector, the external-command runner, the pure template
renderers (`getPrismaSchema`, `getEnvTemplate`), the environment-file and
`package.json` merge logic of `setupPrisma` / `init`, the regex-based layout
patch of `setupAuth`, the conditional prompt collectors, and the
`createNextProject` step.  File-system state is passed explicitly (an
existence predicate, optional file contents, a trace of file actions);
strings are modelled as Lean `String` / `List Char`.
-/

/-- Model of `path.join(dir, file)` for the simple two-component joins the CLI
performs (no normalization is ever needed for those calls). -/
def pathJoin (dir file : String) : String := dir ++ "/" ++ file

/-- Embedding of `detectPackageManager` (`setup-auth.ts` lines 15-20; the copy
in `init.ts` lines 27-32 is identical except that it checks the lockfile names
relative to the current working directory).  The file system is passed in as
the existence predicate `fsExists`. -/
def detectPackageManager (projectDir : String) (fsExists : String → Bool) : String :=
  if fsExists (pathJoin projectDir "pnpm-lock.yaml") then "pnpm"
  else if fsExists (pathJoin projectDir "yarn.lock") then "yarn"
  else if fsExists (pathJoin projectDir "package-lock.json") then "npm"
  else "npm"

/-- Outcome of `execSync`: normal termination with exit code 0, or a thrown
exception (non-zero exit or spawn failure). -/
inductive ExecOutcome
  | ok
  | fail
deriving DecidableEq

/-- Embedding of `runCommand` (`setup-auth.ts` lines 22-28, `init.ts` lines
34-40).  The first component of the result is the trace of `execSync`
invocations, each carrying the command string and the working directory; the
second is the control-flow outcome: `Except.error m` models
`throw new Error(m)` with the exact message built by the source. -/
def runCommand (command cwd : String) (outcome : ExecOutcome) :
    List (String × String) × Except String Unit :=
  ([(command, cwd)],
   match outcome with
   | .ok => .ok ()
   | .fail => .error ("Failed to execute: " ++ command))

/-- The prompt answers consumed by `getEnvTemplate` (the `DbConfig` interface
of `env.template.ts`).  Keys that were skipped by a gated prompt are absent
from the answers object, hence `Option`. -/
structure DbConfig where
  dbType : String
  dbName : Option String := none
  dbHost : Option String := none
  dbPort : Option String := none
  dbUser : Option String := none
  dbPassword : Option String := none

/-- JavaScript template-literal interpolation of a possibly-`undefined`
value: `undefined` prints as the string `undefined`. -/
def jsShow (o : Option String) : String := o.getD "undefined"

/-- The `switch (dbType)` of `getEnvTemplate` (`env.template.ts` lines 13-33)
computing `databaseUrl`; the `default` branch duplicates the `postgresql`
arm. -/
def databaseUrlFor (c : DbConfig) : String :=
  if c.dbType = "postgresql" then
    "postgresql://" ++ jsShow c.dbUser ++ ":" ++ jsShow c.dbPassword ++ "@" ++
      jsShow c.dbHost ++ ":" ++ jsShow c.dbPort ++ "/" ++ jsShow c.dbName ++ "?schema=public"
  else if c.dbType = "mysql" then
    "mysql://" ++ jsShow c.dbUser ++ ":" ++ jsShow c.dbPassword ++ "@" ++
      jsShow c.dbHost ++ ":" ++ jsShow c.dbPort ++ "/" ++ jsShow c.dbName
  else if c.dbType = "sqlite" then
    "file:./dev.db"
  else if c.dbType = "mongodb" then
    "mongodb://" ++ jsShow c.dbUser ++ ":" ++ jsShow c.dbPassword ++ "@" ++
      jsShow c.dbHost ++ ":" ++ jsShow c.dbPort ++ "/" ++ jsShow c.dbName ++ "?authSource=admin"
  else if c.dbType = "sqlserver" then
    "sqlserver://" ++ jsShow c.dbHost ++ ":" ++ jsShow c.dbPort ++ ";database=" ++
      jsShow c.dbName ++ ";user=" ++ jsShow c.dbUser ++ ";password=" ++
      jsShow c.dbPassword ++ ";encrypt=true"
  else
    "postgresql://" ++ jsShow c.dbUser ++ ":" ++ jsShow c.dbPassword ++ "@" ++
      jsShow c.dbHost ++ ":" ++ jsShow c.dbPort ++ "/" ++ jsShow c.dbName ++ "?schema=public"

/-- Embedding of `getEnvTemplate` (`env.template.ts` lines 10-41): the
rendered environment-file fragment. -/
def getEnvTemplate (c : DbConfig) : String :=
  "# Database Configuration\nDATABASE_URL=\"" ++ databaseUrlFor c ++
    "\"\n\n# Note: Never commit this file to version control!\n# Add .env to your .gitignore file\n"

/-- The `providers` record of `getPrismaSchema` (`prisma.template.ts`). -/
def prismaProviders : List (String × String) :=
  [("postgresql", "postgresql"), ("mysql", "mysql"), ("sqlite", "sqlite"),
   ("mongodb", "mongodb"), ("sqlserver", "sqlserver")]

/-- Text of the generated `schema.prisma` before the `provider = "` value
(`prisma.template.ts`). -/
def prismaSchemaPrefix : String :=
  "// This is your Prisma schema file,\n// learn more about it in the docs: https://pris.ly/d/prisma-schema\n\ngenerator client \x7b\n  provider = \"prisma-client-js\"\n\x7d\n\ndatasource db \x7b\n  provider = \""

/-- Text of the generated `schema.prisma` after the provider value: the
datasource url and the example `Account`/`Session`/`User`/`Role` models
(`prisma.template.ts`). -/
def prismaSchemaSuffix : String :=
  "\"\n  url      = env(\"DATABASE_URL\")\n\x7d\n\n// Example model - customize as needed\nmodel Account \x7b\n  id                String  @id @default(cuid())\n  userId            String\n  type              String\n  provider          String\n  providerAccountId String\n  refresh_token     String? @db.Text\n  access_token      String? @db.Text\n  expires_at        Int?\n  token_type        String?\n  scope             String?\n  id_token          String? @db.Text\n  session_state     String?\n  user              User    @relation(fields: [userId], references: [id], onDelete: Cascade)\n\n  @@unique([provider, providerAccountId])\n  @@index([userId], map: \"accounts_userId_fkey\")\n  @@map(\"accounts\")\n\x7d\n\nmodel Session \x7b\n  id           String   @id @default(cuid())\n  sessionToken String   @unique\n  userId       String\n  expires      DateTime\n  user         User     @relation(fields: [userId], references: [id], onDelete: Cascade)\n\n  @@index([userId], map: \"sessions_userId_fkey\")\n  @@map(\"sessions\")\n\x7d\n\n\n\nmodel User \x7b\n  id                   String                @id @default(cuid())\n  userCode             String?               @unique // 👈 new field, optional at first\n  email                String                @unique\n  name                 String\n  password             String?\n  avatar               String?\n  role                 Role                  @default(MEMBER)\n  createdAt            DateTime              @default(now())\n  updatedAt            DateTime              @updatedAt\n  resetToken           String?\n  resetTokenExpiry     DateTime?\n  accounts             Account[]\n  sessions             Session[]\n\n\n  @@map(\"users\")\n\x7d\n\nenum Role \x7b\n  ADMIN\n  MANAGER\n  MEMBER\n\x7d\n"

/-- Property names a plain object literal inherits from `Object.prototype`,
all bound to truthy values (methods, and the prototype object itself for
`__proto__`). -/
def objectPrototypeMembers : List String :=
  ["constructor", "hasOwnProperty", "isPrototypeOf", "propertyIsEnumerable",
   "toLocaleString", "toString", "valueOf",
   "__defineGetter__", "__defineSetter__", "__lookupGetter__", "__lookupSetter__",
   "__proto__"]

/-- JavaScript property read `own[k]` on a plain object literal: an own
property wins, otherwise the prototype chain supplies the inherited
`Object.prototype` members, otherwise `undefined` (`none`).  The inherited
values are functions (or the prototype object for `__proto__`); they are
modelled here by the string a Node (V8) template literal renders them to,
which is also how they end up inside the generated schema text.  Every
reachable value is truthy, so `x || d` on the result is `getD d`. -/
def jsObjectGet (own : List (String × String)) (k : String) : Option String :=
  match own.lookup k with
  | some v => some v
  | none =>
    if k ∈ objectPrototypeMembers then
      some (if k = "__proto__" then "[object Object]"
            else "function " ++ k ++ "() \x7b [native code] \x7d")
    else none

/-- Embedding of `getPrismaSchema` (`prisma.template.ts`):
`providers[dbType] || "postgresql"` spliced into the schema text, with the
property read following the prototype chain of the `providers` object
literal. -/
def getPrismaSchema (dbType : String) : String :=
  prismaSchemaPrefix ++ ((jsObjectGet prismaProviders dbType).getD "postgresql") ++
    prismaSchemaSuffix

/-- The literal the regex `/^DATABASE_URL=.*$/m` requires at the start of a
line, as characters. -/
def dbUrlPat : List Char := "DATABASE_URL=".data

/-- Whether a line is matched by `^DATABASE_URL=.*$` (with `/m`, `^`/`$`
delimit a line and `.*` takes the rest of that line). -/
def isDbUrlLine (l : List Char) : Bool := dbUrlPat.isPrefixOf l

/-- Split a character sequence at every newline into its lines (the lines do
not contain the separators; `n` newlines yield `n + 1` lines). -/
def linesOf : List Char → List (List Char)
  | [] => [[]]
  | c :: t =>
    if c = '\n' then [] :: linesOf t
    else
      match linesOf t with
      | [] => [[c]]
      | l :: ls => (c :: l) :: ls

/-- Rejoin lines with newlines; left inverse of `linesOf` for newline-free
lines. -/
def joinLines : List (List Char) → List Char
  | [] => []
  | [l] => l
  | l :: l' :: ls => l ++ '\n' :: joinLines (l' :: ls)

/-- Effect of `existing.replace(/^DATABASE_URL=.*$/m, "")` on the line list:
without `/g` only the first matching line is replaced, and the replacement
empties the line while both surrounding newlines survive. -/
def blankFirstDbUrl : List (List Char) → List (List Char)
  | [] => []
  | l :: ls => if isDbUrlLine l then [] :: ls else l :: blankFirstDbUrl ls

/-- `existing.replace(/^DATABASE_URL=.*$/m, "")` (`setup-prisma` section of
`setup-auth.ts`, line 989) on a character sequence. -/
def stripDatabaseUrlChars (e : List Char) : List Char :=
  joinLines (blankFirstDbUrl (linesOf e))

/-- The environment-file merge of `setupPrisma` (`setup-auth.ts` lines
983-993): when `.env` exists its first `DATABASE_URL` line is blanked and the
new fragment is appended after a newline; otherwise the fragment becomes the
whole file. -/
def mergeEnvPrismaChars : Option (List Char) → List Char → List Char
  | none, env => env
  | some e, env => stripDatabaseUrlChars e ++ '\n' :: env

/-- String-level wrapper of `mergeEnvPrismaChars`: the content of `.env`
after the `setupPrisma` merge, given the prior content (if the file existed)
and the rendered fragment. -/
def mergeEnvPrisma (existing : Option String) (env : String) : String :=
  String.mk (mergeEnvPrismaChars (existing.map String.data) env.data)

/-- The environment-file merge of `init` (`init.ts` lines 233-241): the new
fragment is appended after a blank line with no stripping at all. -/
def mergeEnvInit (existing : Option String) (env : String) : String :=
  match existing with
  | some e => e ++ "\n\n" ++ env
  | none => env

/-- Number of lines matched by `^DATABASE_URL=` in a character sequence. -/
def countDbLines (s : List Char) : Nat :=
  (linesOf s).countP (fun l => isDbUrlLine l)

/-- The `sqlite` answer set of the `setupPrisma` collector: every gated
network question was skipped, so only `dbType` is present. -/
def sqliteCfg : DbConfig := { dbType := "sqlite" }

/-- Substring test on character sequences (used for
`layoutContent.includes(...)` and to state which fragments survive a
patch). -/
def isSubstring (needle : List Char) : List Char → Bool
  | [] => needle.isEmpty
  | c :: t => needle.isPrefixOf (c :: t) || isSubstring needle t

/-- `hay.includes(needle)` on strings. -/
def containsStr (hay needle : String) : Bool := isSubstring needle.data hay.data

/-- Replacement text of the first layout patch (the template literal at
`setup-auth.ts` lines 746-755): canonical import block plus metadata. -/
def importRepl : String :=
  "import \"./globals.css\"\nimport \x7b Inter \x7d from \"next/font/google\"\nimport \x7b Providers \x7d from \"@/components/providers\"\n\nconst inter = Inter(\x7b subsets: [\"latin\"] \x7d)\n\nexport const metadata = \x7b\n  title: \"Create Next App\",\n  description: \"Generated by create next app\",\n\x7d"

/-- Replacement text of the `<html.*>` patch (`setup-auth.ts` line 758). -/
def htmlRepl : String := "<html lang=\"en\" suppressHydrationWarning>"

/-- Replacement text of the `<body.*>` patch (`setup-auth.ts` line 761). -/
def bodyRepl : String := "<body className=\x7binter.className\x7d>"

/-- Replacement text of the `/<body.*>.*<\/body>/s` patch (`setup-auth.ts`
lines 764-766), wrapping the children in `Providers`. -/
def bodyProvidersRepl : String :=
  "<body className=\x7binter.className\x7d>\n            <Providers>\x7bchildren\x7d</Providers>\n          </body>"

/-- Consume the rest of the current line and its terminating newline
(`.*\n` where `.` does not match a newline): `none` when no newline
follows. -/
def consumeLineNl (l : List Char) : Option (List Char) :=
  match l.dropWhile (fun c => c ≠ '\n') with
  | [] => none
  | _ :: t => some t

/-- Attempt of the regex `import.*\n.*\n.*\n` at the head of `l`: the literal
`import` followed by the rest of that line and two further complete lines.
Returns the suffix after the match. -/
def matchImportAt (l : List Char) : Option (List Char) :=
  if "import".data.isPrefixOf l then
    consumeLineNl (l.drop 6) >>= fun r1 => consumeLineNl r1 >>= fun r2 => consumeLineNl r2
  else none

/-- Characters after the last `>` of a sequence (`none` when it has no `>`):
the backtracking of a greedy `.*>` within one line. -/
def afterLastGt : List Char → Option (List Char)
  | [] => none
  | c :: t =>
    match afterLastGt t with
    | some tail => some tail
    | none => if c = '>' then some t else none

/-- Attempt of `<html.*>` at the head of `l` (without `/s`, `.*` stays inside
the line and greedily reaches the last `>` of it). -/
def matchHtmlAt (l : List Char) : Option (List Char) :=
  if "<html".data.isPrefixOf l then
    let r := l.drop 5
    match afterLastGt (r.takeWhile (fun c => c ≠ '\n')) with
    | some tail => some (tail ++ r.dropWhile (fun c => c ≠ '\n'))
    | none => none
  else none

/-- Attempt of `<body.*>` at the head of `l`, as for `matchHtmlAt`. -/
def matchBodyAt (l : List Char) : Option (List Char) :=
  if "<body".data.isPrefixOf l then
    let r := l.drop 5
    match afterLastGt (r.takeWhile (fun c => c ≠ '\n')) with
    | some tail => some (tail ++ r.dropWhile (fun c => c ≠ '\n'))
    | none => none
  else none

/-- Start index of the last occurrence of `pat` in `l`. -/
def lastIdxOf (pat : List Char) : List Char → Option Nat
  | [] => none
  | c :: t =>
    match lastIdxOf pat t with
    | some j => some (j + 1)
    | none => if pat.isPrefixOf (c :: t) then some 0 else none

/-- Attempt of `/<body.*>.*<\/body>/s` at the head of `l`.  With `/s` both
`.*` may cross lines; by greedy backtracking the match extends to the end of
the last `</body>` occurrence that is preceded by some `>` (strictly between
the `<body` literal and that occurrence). -/
def matchBodyCloseAt (l : List Char) : Option (List Char) :=
  if "<body".data.isPrefixOf l then
    let r := l.drop 5
    match lastIdxOf "</body>".data r, r.findIdx? (fun c => c = '>') with
    | some q, some g => if g < q then some (r.drop (q + 7)) else none
    | _, _ => none
  else none

/-- `String.prototype.replace` with a global regex: scan left to right, after
each match continue from the end of the matched region; the fuel argument is
an upper bound on the scanned length (a match always consumes at least one
character, so initial fuel `l.length` is never exhausted). -/
def replaceAllWith (matcher : List Char → Option (List Char)) (repl : List Char) :
    Nat → List Char → List Char
  | 0, l => l
  | _ + 1, [] => []
  | fuel + 1, c :: t =>
    match matcher (c :: t) with
    | some suffix => repl ++ replaceAllWith matcher repl fuel suffix
    | none => c :: replaceAllWith matcher repl fuel t

/-- `String.prototype.replace` with a non-global regex: replace the leftmost
match only and keep the rest verbatim. -/
def replaceOnceWith (matcher : List Char → Option (List Char)) (repl : List Char) :
    Nat → List Char → List Char
  | 0, l => l
  | _ + 1, [] => []
  | fuel + 1, c :: t =>
    match matcher (c :: t) with
    | some suffix => repl ++ suffix
    | none => c :: replaceOnceWith matcher repl fuel t

/-- The chained replaces of the `setupAuth` layout patch (`setup-auth.ts`
lines 744-767), in source order: the global three-line `import` pattern, then
`<html.*>`, then `<body.*>`, then the dotall `<body.*>.*</body>` wrap. -/
def patchLayoutChars (l : List Char) : List Char :=
  let s1 := replaceAllWith matchImportAt importRepl.data l.length l
  let s2 := replaceOnceWith matchHtmlAt htmlRepl.data s1.length s1
  let s3 := replaceOnceWith matchBodyAt bodyRepl.data s2.length s2
  replaceOnceWith matchBodyCloseAt bodyProvidersRepl.data s3.length s3

/-- The layout patch on strings. -/
def patchLayout (s : String) : String := String.mk (patchLayoutChars s.data)

/-- The guarded layout update of `setupAuth` (`setup-auth.ts` lines 738-770):
if the file already contains the sentinel `Providers` nothing is written
(second component `false`); otherwise the patched content is written. -/
def updateLayoutStep (layoutContent : String) : String × Bool :=
  if containsStr layoutContent "Providers" then (layoutContent, false)
  else (patchLayout layoutContent, true)

/-- JSON values as parsed by `fs.readJson` / written by `fs.writeJson`
(objects keep key insertion order, as JavaScript objects do). -/
inductive Json
  | null
  | bool (b : Bool)
  | num (n : Int)
  | str (s : String)
  | arr (xs : List Json)
  | obj (kvs : List (String × Json))

/-- JavaScript truthiness of a JSON value (`NaN` cannot be produced by JSON
parsing, so integers model the falsy number `0` faithfully). -/
def Json.truthy : Json → Bool
  | .null => false
  | .bool b => b
  | .num n => n != 0
  | .str s => s != ""
  | .arr _ => true
  | .obj _ => true

/-- JavaScript property assignment `o[k] = v` on an object's key/value list:
an existing key keeps its slot, a new key is appended. -/
def setKey : List (String × Json) → String → Json → List (String × Json)
  | [], k, v => [(k, v)]
  | (k', v') :: rest, k, v =>
    if k' = k then (k', v) :: rest else (k', v') :: setKey rest k v

/-- Property read `o[k]` on an object's key/value list. -/
def jsonLookup (kvs : List (String × Json)) (k : String) : Option Json :=
  kvs.lookup k

/-- The value assigned to `packageJson.prisma` (`setup-auth.ts` lines
969-971). -/
def prismaSeedBlock : Json := .obj [("seed", .str "tsx prisma/seed.ts")]

/-- `packageJson.devDependencies || \x7b\x7d` (`setup-auth.ts` line 972): a missing
or falsy value is replaced by an empty object, a truthy one is kept. -/
def jsTruthyOrEmpty (o : Option Json) : Json :=
  match o with
  | some v => if v.truthy then v else .obj []
  | none => .obj []

/-- `packageJson.devDependencies.tsx = "^4.6.2"` (`setup-auth.ts` line 973)
as it affects the serialized value: setting the key on an object; on an array
the extra property is dropped by JSON serialization; on a primitive the
strict-mode assignment throws, so no file is written (`none`). -/
def assignTsx : Json → Option Json
  | .obj d => some (.obj (setKey d "tsx" (.str "^4.6.2")))
  | .arr xs => some (.arr xs)
  | _ => none

/-- The `package.json` upsert of `setupPrisma` (`setup-auth.ts` lines
966-974): set `prisma.seed`, ensure `devDependencies`, set
`devDependencies.tsx`, then write the result back.  `none` models the thrown
`TypeError` path, on which `fs.writeJson` is never reached. -/
def updatePackageJson (pkg : List (String × Json)) : Option (List (String × Json)) :=
  let pkg1 := setKey pkg "prisma" prismaSeedBlock
  let dv1 := jsTruthyOrEmpty (jsonLookup pkg1 "devDependencies")
  match assignTsx dv1 with
  | some dv2 => some (setKey pkg1 "devDependencies" dv2)
  | none => none

/-- Content of `package.json` after the `setupPrisma` step: the merged object
when the write happened, the untouched original when the step threw before
writing. -/
def mergedPackageJson (pkg : List (String × Json)) : List (String × Json) :=
  (updatePackageJson pkg).getD pkg

/-- Read an entry of the `devDependencies` object of a manifest (`none` when
`devDependencies` is absent or not an object). -/
def devDepsLookup (m : List (String × Json)) (k : String) : Option Json :=
  match jsonLookup m "devDependencies" with
  | some (Json.obj d) => d.lookup k
  | _ => none

/-- Value of a prompt answer: `select`/`text`/`password` yield strings,
`confirm` a boolean, `multiselect` a list of strings. -/
inductive PVal
  | str (s : String)
  | bool (b : Bool)
  | strs (ss : List String)
deriving DecidableEq

/-- JavaScript truthiness of an answer value (arrays are always truthy). -/
def PVal.truthy : PVal → Bool
  | .str s => s != ""
  | .bool b => b
  | .strs _ => true

/-- One prompt descriptor: its answer key and its gate.  The gate models the
computed `type` field: `true` stands for any concrete question type, `false`
for `null` (question skipped).  It receives `prev` (the previous submitted
answer) and the `values` collected so far, as the `prompts` library passes
them. -/
structure Question where
  key : String
  gate : Option PVal → List (String × PVal) → Bool

/-- Sequential evaluation of a prompt list (the `prompts([...])` call): a
question whose gate computes `null` is skipped and contributes no key and
does not update `prev`; otherwise the oracle supplies the user's answer and
the pair is appended to the answer object. -/
def runPromptsAux (oracle : String → PVal) :
    List Question → Option PVal → List (String × PVal) → List (String × PVal)
  | [], _, acc => acc
  | q :: rest, prev, acc =>
    if q.gate prev acc then
      let v := oracle q.key
      runPromptsAux oracle rest (some v) (acc ++ [(q.key, v)])
    else runPromptsAux oracle rest prev acc

/-- Run a prompt list from the empty answer object. -/
def runPrompts (qs : List Question) (oracle : String → PVal) : List (String × PVal) :=
  runPromptsAux oracle qs none []

/-- JavaScript `v !== "s"` where `v` is an answer slot: `undefined` and
non-string values are `!==` any string. -/
def strNe (v : Option PVal) (s : String) : Bool :=
  match v with
  | some (.str t) => t != s
  | _ => true

/-- Truthiness of a possibly-missing answer (`undefined` is falsy). -/
def truthyOpt (v : Option PVal) : Bool :=
  match v with
  | some v => v.truthy
  | none => false

/-- The prompt list of `setupPrisma` (`setup-auth.ts` lines 850-895): the
database-type select followed by five questions gated on the type not being
`sqlite` (the first via `prev`, the rest via `values.dbType`). -/
def setupPrismaQuestions : List Question :=
  [ ⟨"dbType", fun _ _ => true⟩,
    ⟨"dbName", fun prev _ => strNe prev "sqlite"⟩,
    ⟨"dbHost", fun _ vs => strNe (vs.lookup "dbType") "sqlite"⟩,
    ⟨"dbPort", fun _ vs => strNe (vs.lookup "dbType") "sqlite"⟩,
    ⟨"dbUser", fun _ vs => strNe (vs.lookup "dbType") "sqlite"⟩,
    ⟨"dbPassword", fun _ vs => strNe (vs.lookup "dbType") "sqlite"⟩ ]

/-- The prompt list of `init` (`init.ts` lines 83-179): two confirms, the
database questions additionally gated on `installPrisma`, then the font and
layout questions. -/
def initQuestions : List Question :=
  [ ⟨"installShadcn", fun _ _ => true⟩,
    ⟨"installPrisma", fun _ _ => true⟩,
    ⟨"dbType", fun _ vs => truthyOpt (vs.lookup "installPrisma")⟩,
    ⟨"dbName", fun prev vs => truthyOpt (vs.lookup "installPrisma") && strNe prev "sqlite"⟩,
    ⟨"dbHost", fun _ vs => truthyOpt (vs.lookup "installPrisma") && strNe (vs.lookup "dbType") "sqlite"⟩,
    ⟨"dbPort", fun _ vs => truthyOpt (vs.lookup "installPrisma") && strNe (vs.lookup "dbType") "sqlite"⟩,
    ⟨"dbUser", fun _ vs => truthyOpt (vs.lookup "installPrisma") && strNe (vs.lookup "dbType") "sqlite"⟩,
    ⟨"dbPassword", fun _ vs => truthyOpt (vs.lookup "installPrisma") && strNe (vs.lookup "dbType") "sqlite"⟩,
    ⟨"fonts", fun _ _ => true⟩,
    ⟨"primaryFont", fun _ _ => true⟩,
    ⟨"createLayout", fun _ _ => true⟩,
    ⟨"createGlobals", fun _ _ => true⟩ ]

/-- A file-system or process side effect of `createNextProject`, in program
order. -/
inductive FsAction
  | removeDir (p : String)
  | ensureDir (p : String)
  | writeFile (p : String)
  | runCmd (cmd : String) (cwd : String)
deriving DecidableEq

/-- The scaffolding writes of `createNextProject`
(`create-next-project.ts` lines 52-275), in source order. -/
def scaffoldActions (projectPath : String) : List FsAction :=
  [ .ensureDir projectPath,
    .writeFile (pathJoin projectPath "package.json"),
    .writeFile (pathJoin projectPath "tsconfig.json"),
    .writeFile (pathJoin projectPath "tailwind.config.ts"),
    .writeFile (pathJoin projectPath "postcss.config.mjs"),
    .writeFile (pathJoin projectPath "next.config.ts"),
    .writeFile (pathJoin projectPath ".gitignore"),
    .ensureDir (projectPath ++ "/src/app"),
    .writeFile (projectPath ++ "/src/app/globals.css"),
    .writeFile (projectPath ++ "/src/app/layout.tsx"),
    .writeFile (projectPath ++ "/src/app/page.tsx"),
    .ensureDir (pathJoin projectPath "public"),
    .writeFile (pathJoin projectPath "yarn.lock") ]

/-- Interactive and external inputs of one `createNextProject` run: the
validated project name (`none` models an empty/cancelled answer), whether the
target directory already exists, the answer to the overwrite confirm, and
whether `yarn install` succeeds. -/
structure CreateInputs where
  projectName : Option String
  dirExists : Bool
  overwriteAnswer : Bool
  yarnInstallOk : Bool

/-- Embedding of `createNextProject` (`create-next-project.ts` lines 9-294):
the trace of side effects actually performed and the returned value (`none`
models `return null`).  On an existing directory with a declined overwrite,
nothing at all is touched; on a confirmed overwrite, `fs.removeSync` runs
before any scaffolding write; on a failed `yarn install` the function returns
`null` after the writes (no rollback). -/
def createNextProject (cwd : String) (inp : CreateInputs) :
    List FsAction × Option (String × String) :=
  match inp.projectName with
  | none => ([], none)
  | some pname =>
    let projectPath := pathJoin cwd pname
    if inp.dirExists && !inp.overwriteAnswer then ([], none)
    else
      let pre := if inp.dirExists then [FsAction.removeDir projectPath] else []
      let trace := pre ++ scaffoldActions projectPath ++ [FsAction.runCmd "yarn install" projectPath]
      if inp.yarnInstallOk then (trace, some (pname, projectPath))
      else (trace, none)

/-- Embedding of `createNextProjectCommand` (`create-next-project.ts` lines
297-309): exit code of the process (`process.exit(1)` on a `null` result,
implicit `0` otherwise) and whether the follow-up actions after project
creation ran. -/
def createNextProjectCommand (cwd : String) (inp : CreateInputs) : Nat × Bool :=
  match (createNextProject cwd inp).2 with
  | none => (1, false)
  | some _ => (0, true)

/-- C9: lockfile detection checks `pnpm-lock.yaml`, then `yarn.lock`, then
`package-lock.json`, returning the first hit and defaulting to `npm`; being a
total function of the existence predicate, it never raises. -/
theorem detectPackageManager_precedence (dir : String) (fsExists : String → Bool) :
    (fsExists (pathJoin dir "pnpm-lock.yaml") = true →
      detectPackageManager dir fsExists = "pnpm") ∧
    (fsExists (pathJoin dir "pnpm-lock.yaml") = false →
      fsExists (pathJoin dir "yarn.lock") = true →
      detectPackageManager dir fsExists = "yarn") ∧
    (fsExists (pathJoin dir "pnpm-lock.yaml") = false →
      fsExists (pathJoin dir "yarn.lock") = false →
      fsExists (pathJoin dir "package-lock.json") = true →
      detectPackageManager dir fsExists = "npm") ∧
    (fsExists (pathJoin dir "pnpm-lock.yaml") = false →
      fsExists (pathJoin dir "yarn.lock") = false →
      fsExists (pathJoin dir "package-lock.json") = false →
      detectPackageManager dir fsExists = "npm") := by
  refine ⟨fun h1 => ?_, fun h1 h2 => ?_, fun h1 h2 h3 => ?_, fun h1 h2 h3 => ?_⟩ <;>
    simp [detectPackageManager, *]

/-- Witness for C9: a directory holding both a pnpm and an npm lockfile is
detected as `pnpm`, and a directory with no lockfile as `npm`. -/
theorem detectPackageManager_precedence_witness :
    detectPackageManager "proj"
      (fun s => s == "proj/pnpm-lock.yaml" || s == "proj/package-lock.json") = "pnpm" ∧
    detectPackageManager "proj" (fun _ => false) = "npm" :=
  ⟨(detectPackageManager_precedence "proj"
      (fun s => s == "proj/pnpm-lock.yaml" || s == "proj/package-lock.json")).1 (by decide),
   (detectPackageManager_precedence "proj" (fun _ => false)).2.2.2 rfl rfl rfl⟩

/-- C6 counterexample: the error thrown by `runCommand` on failure does not
carry the working directory — two runs of the same command in different
directories throw identical error values, so no information about the
directory is present. -/
theorem runCommand_error_ignores_cwd :
    (runCommand "npm install prisma @prisma/client" "/project-a" ExecOutcome.fail).2 =
      (runCommand "npm install prisma @prisma/client" "/project-b" ExecOutcome.fail).2 ∧
    "/project-a" ≠ "/project-b" :=
  ⟨rfl, by decide⟩

/-- C6 amended: on non-zero exit or spawn failure `runCommand` executes the
command exactly once (no retry) and throws a plain `Error` whose message
carries the original command string — but not the working directory. -/
theorem runCommand_failure_single_attempt (command cwd : String) :
    runCommand command cwd ExecOutcome.fail =
      ([(command, cwd)], Except.error ("Failed to execute: " ++ command)) := rfl

/-- C3: when `yarn install` fails, `createNextProject` returns `null`, the
standalone command exits with code 1, and none of the follow-up actions after
project creation run. -/
theorem createNextProjectCommand_aborts_on_install_failure (cwd : String)
    (inp : CreateInputs) (h : inp.yarnInstallOk = false) :
    createNextProjectCommand cwd inp = (1, false) := by
  rcases inp with ⟨pname, de, ow, ok⟩
  simp only at h
  subst h
  cases pname with
  | none => rfl
  | some n =>
    cases hb : (de && !ow) <;>
      simp [createNextProjectCommand, createNextProject, hb]

/-- Witness for C3: a failing install on a fresh directory exits 1 with no
follow-up actions. -/
theorem createNextProjectCommand_aborts_on_install_failure_witness :
    createNextProjectCommand "/work" ⟨some "my-agency-app", false, false, false⟩ = (1, false) :=
  createNextProjectCommand_aborts_on_install_failure "/work"
    ⟨some "my-agency-app", false, false, false⟩ rfl

/-- C8: a layout file that already contains the sentinel string `Providers`
is left byte-identical by the `setupAuth` layout update, and no write is
performed. -/
theorem layout_with_marker_left_unchanged (s : String)
    (h : containsStr s "Providers" = true) :
    updateLayoutStep s = (s, false) := by
  simp [updateLayoutStep, h]

/-- Witness for C8: a layout already wrapping its children in `Providers` is
untouched. -/
theorem layout_with_marker_left_unchanged_witness :
    updateLayoutStep "<body>\n  <Providers>\x7bchildren\x7d</Providers>\n</body>" =
      ("<body>\n  <Providers>\x7bchildren\x7d</Providers>\n</body>", false) :=
  layout_with_marker_left_unchanged "<body>\n  <Providers>\x7bchildren\x7d</Providers>\n</body>"
    (by decide)

set_option maxRecDepth 100000 in
/-- C7 counterexample: the schema fallback is not universal over unknown
database kinds.  For `dbType = "toString"` — a string outside the known set —
the property read `providers[dbType]` hits the inherited, truthy
`Object.prototype.toString`, the `|| "postgresql"` fallback never fires, and
the rendered provider is the stringified function, not `postgresql`. -/
theorem getPrismaSchema_inherited_member_not_postgresql :
    "toString" ∉ ["postgresql", "mysql", "sqlite", "mongodb", "sqlserver"] ∧
    getPrismaSchema "toString" ≠
      prismaSchemaPrefix ++ "postgresql" ++ prismaSchemaSuffix := by
  constructor
  · decide
  · decide

/-- C7 amended: an unrecognized database kind falls back to the defaults
provided it is not a property name inherited from `Object.prototype` (for
those the truthy inherited member suppresses the `||` fallback): the Prisma
schema is rendered with provider `postgresql`, and the environment template —
whose `switch` has no prototype issue — renders the PostgreSQL-form
connection URL for every unknown kind (output identical to the `postgresql`
case); both renderers are total, so they never fail. -/
theorem unknown_db_type_falls_back_to_postgresql (cfg : DbConfig)
    (h : cfg.dbType ∉ ["postgresql", "mysql", "sqlite", "mongodb", "sqlserver"])
    (hp : cfg.dbType ∉ objectPrototypeMembers) :
    getPrismaSchema cfg.dbType = prismaSchemaPrefix ++ "postgresql" ++ prismaSchemaSuffix ∧
    getEnvTemplate cfg = getEnvTemplate { cfg with dbType := "postgresql" } := by
  simp only [List.mem_cons, List.not_mem_nil, or_false, not_or] at h
  obtain ⟨h1, h2, h3, h4, h5⟩ := h
  constructor
  · have b1 : (cfg.dbType == "postgresql") = false := beq_eq_false_iff_ne.mpr h1
    have b2 : (cfg.dbType == "mysql") = false := beq_eq_false_iff_ne.mpr h2
    have b3 : (cfg.dbType == "sqlite") = false := beq_eq_false_iff_ne.mpr h3
    have b4 : (cfg.dbType == "mongodb") = false := beq_eq_false_iff_ne.mpr h4
    have b5 : (cfg.dbType == "sqlserver") = false := beq_eq_false_iff_ne.mpr h5
    simp [getPrismaSchema, jsObjectGet, prismaProviders, List.lookup,
      b1, b2, b3, b4, b5, hp]
  · simp [getEnvTemplate, databaseUrlFor, h1, h2, h3, h4, h5]

/-- Witness for C7's amended theorem: the typo kind `postgres` renders the
PostgreSQL defaults. -/
theorem unknown_db_type_falls_back_to_postgresql_witness :
    getPrismaSchema "postgres" = prismaSchemaPrefix ++ "postgresql" ++ prismaSchemaSuffix ∧
    getEnvTemplate { dbType := "postgres", dbName := some "myapp_db",
                     dbHost := some "localhost", dbPort := some "5432",
                     dbUser := some "root", dbPassword := some "" } =
      getEnvTemplate { dbType := "postgresql", dbName := some "myapp_db",
                       dbHost := some "localhost", dbPort := some "5432",
                       dbUser := some "root", dbPassword := some "" } :=
  unknown_db_type_falls_back_to_postgresql
    { dbType := "postgres", dbName := some "myapp_db", dbHost := some "localhost",
      dbPort := some "5432", dbUser := some "root", dbPassword := some "" }
    (by decide) (by decide)

/-- C10: when the target directory already exists, a declined overwrite
confirm makes `createNextProject` return `null` with no file-system effect at
all (the pre-existing directory and its contents are untouched), while a
confirmed overwrite removes the whole directory as the very first effect,
before any scaffolding write. -/
theorem createNextProject_existing_dir_behavior (cwd pname : String)
    (inp : CreateInputs) (hn : inp.projectName = some pname)
    (hd : inp.dirExists = true) :
    (inp.overwriteAnswer = false → createNextProject cwd inp = ([], none)) ∧
    (inp.overwriteAnswer = true →
      (createNextProject cwd inp).1 =
        FsAction.removeDir (pathJoin cwd pname) ::
          (scaffoldActions (pathJoin cwd pname) ++
            [FsAction.runCmd "yarn install" (pathJoin cwd pname)])) := by
  rcases inp with ⟨pn, de, ow, ok⟩
  simp only at hn hd
  subst hn
  subst hd
  constructor <;> intro ho <;> subst ho
  · rfl
  · cases ok <;> simp [createNextProject]

/-- Witness for C10: both branches at a concrete existing directory. -/
theorem createNextProject_existing_dir_behavior_witness :
    createNextProject "/w" ⟨some "app", true, false, true⟩ = ([], none) ∧
    (createNextProject "/w" ⟨some "app", true, true, true⟩).1 =
      FsAction.removeDir (pathJoin "/w" "app") ::
        (scaffoldActions (pathJoin "/w" "app") ++
          [FsAction.runCmd "yarn install" (pathJoin "/w" "app")]) :=
  ⟨(createNextProject_existing_dir_behavior "/w" "app" ⟨some "app", true, false, true⟩
      rfl rfl).1 rfl,
   (createNextProject_existing_dir_behavior "/w" "app" ⟨some "app", true, true, true⟩
      rfl rfl).2 rfl⟩

/-- C5: when the chosen database type is `sqlite`, every gated
database-detail question is skipped and contributes no key: the answer
mappings of both the `setupPrisma` collector and the `init` collector contain
none of `dbName`, `dbHost`, `dbPort`, `dbUser`, `dbPassword`, whatever the
user answers to the other questions. -/
theorem sqlite_answers_omit_db_details (oracle : String → PVal)
    (h : oracle "dbType" = PVal.str "sqlite") :
    ((runPrompts setupPrismaQuestions oracle).lookup "dbName" = none ∧
     (runPrompts setupPrismaQuestions oracle).lookup "dbHost" = none ∧
     (runPrompts setupPrismaQuestions oracle).lookup "dbPort" = none ∧
     (runPrompts setupPrismaQuestions oracle).lookup "dbUser" = none ∧
     (runPrompts setupPrismaQuestions oracle).lookup "dbPassword" = none) ∧
    ((runPrompts initQuestions oracle).lookup "dbName" = none ∧
     (runPrompts initQuestions oracle).lookup "dbHost" = none ∧
     (runPrompts initQuestions oracle).lookup "dbPort" = none ∧
     (runPrompts initQuestions oracle).lookup "dbUser" = none ∧
     (runPrompts initQuestions oracle).lookup "dbPassword" = none) := by
  constructor
  · have hsp : runPrompts setupPrismaQuestions oracle = [("dbType", PVal.str "sqlite")] := by
      simp [runPrompts, runPromptsAux, setupPrismaQuestions, strNe, h, List.lookup]
    rw [hsp]
    refine ⟨rfl, rfl, rfl, rfl, rfl⟩
  · cases hp : (oracle "installPrisma").truthy
    · have hin : runPrompts initQuestions oracle =
          [("installShadcn", oracle "installShadcn"),
           ("installPrisma", oracle "installPrisma"),
           ("fonts", oracle "fonts"), ("primaryFont", oracle "primaryFont"),
           ("createLayout", oracle "createLayout"),
           ("createGlobals", oracle "createGlobals")] := by
        simp [runPrompts, runPromptsAux, initQuestions, strNe, truthyOpt, h, hp, List.lookup]
      rw [hin]
      refine ⟨rfl, rfl, rfl, rfl, rfl⟩
    · have hin : runPrompts initQuestions oracle =
          [("installShadcn", oracle "installShadcn"),
           ("installPrisma", oracle "installPrisma"),
           ("dbType", PVal.str "sqlite"),
           ("fonts", oracle "fonts"), ("primaryFont", oracle "primaryFont"),
           ("createLayout", oracle "createLayout"),
           ("createGlobals", oracle "createGlobals")] := by
        simp [runPrompts, runPromptsAux, initQuestions, strNe, truthyOpt, h, hp, List.lookup]
      rw [hin]
      refine ⟨rfl, rfl, rfl, rfl, rfl⟩

/-- Witness for C5: a user who answers `sqlite` (and `sqlite` to every text
question) gets an answer mapping with no database-detail keys. -/
theorem sqlite_answers_omit_db_details_witness :
    ((runPrompts setupPrismaQuestions (fun _ => PVal.str "sqlite")).lookup "dbName" = none ∧
     (runPrompts setupPrismaQuestions (fun _ => PVal.str "sqlite")).lookup "dbHost" = none ∧
     (runPrompts setupPrismaQuestions (fun _ => PVal.str "sqlite")).lookup "dbPort" = none ∧
     (runPrompts setupPrismaQuestions (fun _ => PVal.str "sqlite")).lookup "dbUser" = none ∧
     (runPrompts setupPrismaQuestions (fun _ => PVal.str "sqlite")).lookup "dbPassword" = none) ∧
    ((runPrompts initQuestions (fun _ => PVal.str "sqlite")).lookup "dbName" = none ∧
     (runPrompts initQuestions (fun _ => PVal.str "sqlite")).lookup "dbHost" = none ∧
     (runPrompts initQuestions (fun _ => PVal.str "sqlite")).lookup "dbPort" = none ∧
     (runPrompts initQuestions (fun _ => PVal.str "sqlite")).lookup "dbUser" = none ∧
     (runPrompts initQuestions (fun _ => PVal.str "sqlite")).lookup "dbPassword" = none) :=
  sqlite_answers_omit_db_details (fun _ => PVal.str "sqlite") rfl

/-- Reading back the key just set by a property assignment yields the new
value. -/
theorem lookup_setKey_self (l : List (String × Json)) (k : String) (v : Json) :
    (setKey l k v).lookup k = some v := by
  induction l with
  | nil => simp [setKey, List.lookup]
  | cons a rest ih =>
    obtain ⟨k', v'⟩ := a
    by_cases hk : k' = k
    · subst hk
      simp [setKey, List.lookup]
    · have hb : (k == k') = false := beq_eq_false_iff_ne.mpr (Ne.symm hk)
      simp [setKey, hk, List.lookup, hb, ih]

/-- A property assignment leaves every other key unchanged. -/
theorem lookup_setKey_ne (l : List (String × Json)) (k : String) (v : Json)
    (k' : String) (h : k' ≠ k) :
    (setKey l k v).lookup k' = l.lookup k' := by
  induction l with
  | nil =>
    have hb : (k' == k) = false := beq_eq_false_iff_ne.mpr h
    simp [setKey, List.lookup, hb]
  | cons a rest ih =>
    obtain ⟨k₀, v₀⟩ := a
    by_cases hk : k₀ = k
    · subst hk
      have hb : (k' == k₀) = false := beq_eq_false_iff_ne.mpr h
      simp [setKey, List.lookup, hb]
    · simp [setKey, hk, List.lookup, ih]

/-- C4: the `package.json` upsert of `setupPrisma` is non-destructive on
everything it does not own: every top-level key other than `prisma` and
`devDependencies` keeps its exact value, and when `devDependencies` was an
object, every entry of it other than `tsx` keeps its exact value. -/
theorem package_upsert_preserves_unowned (pkg : List (String × Json)) :
    (∀ k, k ≠ "prisma" → k ≠ "devDependencies" →
      jsonLookup (mergedPackageJson pkg) k = jsonLookup pkg k) ∧
    (∀ d k', jsonLookup pkg "devDependencies" = some (Json.obj d) → k' ≠ "tsx" →
      devDepsLookup (mergedPackageJson pkg) k' = d.lookup k') := by
  have hdv : List.lookup "devDependencies" (setKey pkg "prisma" prismaSeedBlock) =
      List.lookup "devDependencies" pkg :=
    lookup_setKey_ne pkg "prisma" prismaSeedBlock "devDependencies" (by decide)
  constructor
  · intro k hk1 hk2
    show List.lookup k (mergedPackageJson pkg) = List.lookup k pkg
    simp only [mergedPackageJson, updatePackageJson]
    cases ha : assignTsx (jsTruthyOrEmpty
        (jsonLookup (setKey pkg "prisma" prismaSeedBlock) "devDependencies")) with
    | none => simp [ha]
    | some dv2 =>
      simp only [ha, Option.getD_some]
      rw [lookup_setKey_ne _ _ _ _ hk2, lookup_setKey_ne _ _ _ _ hk1]
  · intro d k' hv hk'
    have hdv2 : List.lookup "devDependencies" (setKey pkg "prisma" prismaSeedBlock) =
        some (Json.obj d) := hdv.trans hv
    have hm : mergedPackageJson pkg =
        setKey (setKey pkg "prisma" prismaSeedBlock) "devDependencies"
          (Json.obj (setKey d "tsx" (Json.str "^4.6.2"))) := by
      simp [mergedPackageJson, updatePackageJson, jsonLookup, hdv2, jsTruthyOrEmpty,
        Json.truthy, assignTsx]
    rw [hm]
    simp only [devDepsLookup, jsonLookup, lookup_setKey_self]
    exact lookup_setKey_ne d "tsx" (Json.str "^4.6.2") k' hk'

/-- Witness for C4: a manifest with a `version` key and a `typescript`
dev-dependency keeps both unchanged through the upsert. -/
theorem package_upsert_preserves_unowned_witness :
    jsonLookup (mergedPackageJson
        [("version", Json.str "0.1.0"),
         ("devDependencies", Json.obj [("typescript", Json.str "^5")])]) "version" =
      some (Json.str "0.1.0") ∧
    devDepsLookup (mergedPackageJson
        [("version", Json.str "0.1.0"),
         ("devDependencies", Json.obj [("typescript", Json.str "^5")])]) "typescript" =
      some (Json.str "^5") := by
  constructor
  · rw [(package_upsert_preserves_unowned
        [("version", Json.str "0.1.0"),
         ("devDependencies", Json.obj [("typescript", Json.str "^5")])]).1 "version"
        (by decide) (by decide)]
    rfl
  · rw [(package_upsert_preserves_unowned
        [("version", Json.str "0.1.0"),
         ("devDependencies", Json.obj [("typescript", Json.str "^5")])]).2
        [("typescript", Json.str "^5")] "typescript" rfl (by decide)]
    rfl

/-- Splitting at newlines always yields at least one line. -/
theorem linesOf_ne_nil (l : List Char) : linesOf l ≠ [] := by
  induction l with
  | nil => simp [linesOf]
  | cons c t ih =>
    by_cases h : c = '\n'
    · simp [linesOf, h]
    · cases hlt : linesOf t with
      | nil => exact absurd hlt ih
      | cons x xs => simp [linesOf, h, hlt]

/-- A newline in the middle splits: the lines of `a ++ '\n' :: b` are the
lines of `a` followed by the lines of `b`. -/
theorem linesOf_append_newline (a b : List Char) :
    linesOf (a ++ '\n' :: b) = linesOf a ++ linesOf b := by
  induction a with
  | nil => simp [linesOf]
  | cons c t ih =>
    by_cases h : c = '\n'
    · subst h
      simp [linesOf, ih]
    · cases hlt : linesOf t with
      | nil => exact absurd hlt (linesOf_ne_nil t)
      | cons x xs =>
        simp only [List.cons_append]
        have hstep : linesOf (c :: (t ++ '\n' :: b)) =
            match linesOf (t ++ '\n' :: b) with
            | [] => [[c]]
            | l :: ls => (c :: l) :: ls := by
          simp [linesOf, h]
        rw [hstep, ih, hlt]
        simp [linesOf, h, hlt]

/-- A newline-free sequence is a single line. -/
theorem linesOf_no_newline (l : List Char) (h : ∀ c ∈ l, c ≠ '\n') :
    linesOf l = [l] := by
  induction l with
  | nil => rfl
  | cons c t ih =>
    have hc : ¬ c = '\n' := h c (List.mem_cons_self c t)
    have ht : linesOf t = [t] := ih (fun x hx => h x (List.mem_cons_of_mem c hx))
    simp [linesOf, hc, ht]

/-- Every line produced by `linesOf` is newline-free. -/
theorem mem_linesOf_no_newline (l : List Char) :
    ∀ x ∈ linesOf l, '\n' ∉ x := by
  induction l with
  | nil =>
    intro x hx
    simp [linesOf] at hx
    simp [hx]
  | cons c t ih =>
    by_cases h : c = '\n'
    · intro x hx
      rw [h] at hx
      simp [linesOf] at hx
      rcases hx with hx | hx
      · simp [hx]
      · exact ih x hx
    · cases hlt : linesOf t with
      | nil => exact absurd hlt (linesOf_ne_nil t)
      | cons y ys =>
        intro x hx
        simp [linesOf, h, hlt] at hx
        rcases hx with hx | hx
        · subst hx
          intro hmem
          rcases List.mem_cons.mp hmem with hc | hy
          · exact h hc.symm
          · exact ih y (hlt ▸ List.mem_cons_self y ys) hy
        · exact ih x (hlt ▸ List.mem_cons_of_mem y hx)

/-- `linesOf` is a left inverse of `joinLines` on nonempty lists of
newline-free lines. -/
theorem linesOf_joinLines (ls : List (List Char)) (h0 : ls ≠ [])
    (h : ∀ x ∈ ls, '\n' ∉ x) : linesOf (joinLines ls) = ls := by
  induction ls with
  | nil => exact absurd rfl h0
  | cons l rest ih =>
    cases rest with
    | nil =>
      have hl : ∀ c ∈ l, c ≠ '\n' := by
        intro c hc he
        exact h l (List.mem_cons_self l []) (he ▸ hc)
      simpa [joinLines] using linesOf_no_newline l hl
    | cons l' rest' =>
      have hjoin : joinLines (l :: l' :: rest') = l ++ '\n' :: joinLines (l' :: rest') := rfl
      rw [hjoin, linesOf_append_newline]
      have hl : ∀ c ∈ l, c ≠ '\n' := by
        intro c hc he
        exact h l (List.mem_cons_self l (l' :: rest')) (he ▸ hc)
      rw [linesOf_no_newline l hl,
        ih (by simp) (fun x hx => h x (List.mem_cons_of_mem l hx))]
      rfl

/-- Blanking the first `DATABASE_URL` line removes exactly one match (and
none when there was none). -/
theorem countP_blankFirstDbUrl (ls : List (List Char)) :
    (blankFirstDbUrl ls).countP (fun l => isDbUrlLine l) =
      ls.countP (fun l => isDbUrlLine l) - 1 := by
  have hnil : isDbUrlLine [] = false := by decide
  induction ls with
  | nil => simp [blankFirstDbUrl]
  | cons l rest ih =>
    by_cases h : isDbUrlLine l
    · simp [blankFirstDbUrl, h, List.countP_cons, hnil]
    · have hb : isDbUrlLine l = false := by
        simpa using h
      simp [blankFirstDbUrl, hb, List.countP_cons, ih]

/-- `blankFirstDbUrl` never removes a line. -/
theorem blankFirstDbUrl_ne_nil (ls : List (List Char)) (h : ls ≠ []) :
    blankFirstDbUrl ls ≠ [] := by
  cases ls with
  | nil => exact absurd rfl h
  | cons l rest =>
    by_cases hd : isDbUrlLine l <;> simp [blankFirstDbUrl, hd]

/-- Every line after blanking is either the blank line or one of the original
lines. -/
theorem mem_blankFirstDbUrl (ls : List (List Char)) (x : List Char)
    (hx : x ∈ blankFirstDbUrl ls) : x = [] ∨ x ∈ ls := by
  induction ls with
  | nil => simp [blankFirstDbUrl] at hx
  | cons l rest ih =>
    by_cases h : isDbUrlLine l
    · simp [blankFirstDbUrl, h] at hx
      rcases hx with hx | hx
      · exact Or.inl hx
      · exact Or.inr (List.mem_cons_of_mem l hx)
    · simp [blankFirstDbUrl, h] at hx
      rcases hx with hx | hx
      · exact Or.inr (hx ▸ List.mem_cons_self l rest)
      · rcases ih hx with h' | h'
        · exact Or.inl h'
        · exact Or.inr (List.mem_cons_of_mem l h')

/-- C1 counterexample: running the `setupPrisma` environment merge a second
time with the identical fragment does not leave the file byte-identical: the
fragment's comment lines are appended again (only the old `DATABASE_URL` line
is blanked), so the merge is not idempotent. -/
theorem mergeEnvPrisma_not_idempotent :
    mergeEnvPrisma (some (mergeEnvPrisma none (getEnvTemplate sqliteCfg)))
        (getEnvTemplate sqliteCfg) ≠
      mergeEnvPrisma none (getEnvTemplate sqliteCfg) := by
  decide

/-- C1 amended: the `setupPrisma` merge is not byte-idempotent, but it does
maintain the weaker invariant behind the spec's example: merging a fragment
holding exactly one `DATABASE_URL` line into a file holding at most one such
line leaves exactly one such line (the newly rendered one; the old line is
blanked first). -/
theorem mergeEnvPrisma_single_database_url (e env : List Char)
    (henv : countDbLines env = 1) (he : countDbLines e ≤ 1) :
    countDbLines (mergeEnvPrismaChars (some e) env) = 1 := by
  have hb : mergeEnvPrismaChars (some e) env = stripDatabaseUrlChars e ++ '\n' :: env := rfl
  have hlines : linesOf (stripDatabaseUrlChars e) = blankFirstDbUrl (linesOf e) := by
    refine linesOf_joinLines _ (blankFirstDbUrl_ne_nil _ (linesOf_ne_nil e)) ?_
    intro x hx
    rcases mem_blankFirstDbUrl _ x hx with h | h
    · simp [h]
    · exact mem_linesOf_no_newline e x h
  unfold countDbLines at henv he ⊢
  rw [hb, linesOf_append_newline, List.countP_append, hlines, countP_blankFirstDbUrl]
  omega

/-- Witness for C1's amended theorem: the rendered sqlite fragment has one
`DATABASE_URL` line, and merging it over itself still leaves exactly one. -/
theorem mergeEnvPrisma_single_database_url_witness :
    countDbLines (getEnvTemplate sqliteCfg).data = 1 ∧
    countDbLines (mergeEnvPrismaChars (some (getEnvTemplate sqliteCfg).data)
      (getEnvTemplate sqliteCfg).data) = 1 :=
  ⟨by decide,
   mergeEnvPrisma_single_database_url (getEnvTemplate sqliteCfg).data
     (getEnvTemplate sqliteCfg).data (by decide) (by decide)⟩

/-- A global replace whose matcher requires a `trig` prefix leaves content
with no occurrence of `trig` unchanged, whatever the fuel. -/
theorem replaceAllWith_id_of_no_trigger (M : List Char → Option (List Char))
    (repl trig : List Char)
    (hM : ∀ l', trig.isPrefixOf l' = false → M l' = none) :
    ∀ (fuel : Nat) (l : List Char), isSubstring trig l = false →
      replaceAllWith M repl fuel l = l := by
  intro fuel
  induction fuel with
  | zero => intro l _; rfl
  | succ n ih =>
    intro l hl
    cases l with
    | nil => rfl
    | cons c t =>
      have hsplit : trig.isPrefixOf (c :: t) = false ∧ isSubstring trig t = false := by
        have := hl
        simp [isSubstring] at this
        exact this
      simp [replaceAllWith, hM (c :: t) hsplit.1, ih t hsplit.2]

/-- A first-match replace whose matcher requires a `trig` prefix leaves
content with no occurrence of `trig` unchanged, whatever the fuel. -/
theorem replaceOnceWith_id_of_no_trigger (M : List Char → Option (List Char))
    (repl trig : List Char)
    (hM : ∀ l', trig.isPrefixOf l' = false → M l' = none) :
    ∀ (fuel : Nat) (l : List Char), isSubstring trig l = false →
      replaceOnceWith M repl fuel l = l := by
  intro fuel
  induction fuel with
  | zero => intro l _; rfl
  | succ n ih =>
    intro l hl
    cases l with
    | nil => rfl
    | cons c t =>
      have hsplit : trig.isPrefixOf (c :: t) = false ∧ isSubstring trig t = false := by
        have := hl
        simp [isSubstring] at this
        exact this
      simp [replaceOnceWith, hM (c :: t) hsplit.1, ih t hsplit.2]

/-- The import pattern can only fire on an `import` literal. -/
theorem matchImportAt_none (l : List Char)
    (h : "import".data.isPrefixOf l = false) : matchImportAt l = none := by
  simp [matchImportAt, h]

/-- The `<html.*>` pattern can only fire on a `<html` literal. -/
theorem matchHtmlAt_none (l : List Char)
    (h : "<html".data.isPrefixOf l = false) : matchHtmlAt l = none := by
  simp [matchHtmlAt, h]

/-- The `<body.*>` pattern can only fire on a `<body` literal. -/
theorem matchBodyAt_none (l : List Char)
    (h : "<body".data.isPrefixOf l = false) : matchBodyAt l = none := by
  simp [matchBodyAt, h]

/-- The dotall `<body.*>.*</body>` pattern can only fire on a `<body`
literal. -/
theorem matchBodyCloseAt_none (l : List Char)
    (h : "<body".data.isPrefixOf l = false) : matchBodyCloseAt l = none := by
  simp [matchBodyCloseAt, h]

set_option maxRecDepth 40000 in
/-- C2 counterexample: the layout patch does alter text outside the anchor
regions — on a file with no import statement, no `<html>` and no `<body>`
(only the word `important` inside a comment), the two lines following the
`import` letters are consumed by the global three-line pattern and destroyed:
`keep me 1` is present before patching and gone afterwards. -/
theorem patchLayout_corrupts_unrelated_lines :
    containsStr "// important note\nkeep me 1\nkeep me 2\nrest\n" "keep me 1" = true ∧
    containsStr (patchLayout "// important note\nkeep me 1\nkeep me 2\nrest\n")
      "keep me 1" = false := by
  constructor
  · decide
  · decide

/-- C2 amended: a patch whose anchor is absent is skipped without touching
the file — in particular a layout containing none of the trigger literals
`import`, `<html`, `<body` is left byte-identical — but a matched `import`
trigger also consumes the two lines that follow it, so unrelated neighbouring
text is not preserved in general (see the counterexample). -/
theorem patchLayout_skips_missing_anchors (s : String)
    (h1 : containsStr s "import" = false)
    (h2 : containsStr s "<html" = false)
    (h3 : containsStr s "<body" = false) :
    patchLayout s = s := by
  unfold containsStr at h1 h2 h3
  have e1 : replaceAllWith matchImportAt importRepl.data s.data.length s.data = s.data :=
    replaceAllWith_id_of_no_trigger _ _ _ matchImportAt_none _ _ h1
  have e2 : replaceOnceWith matchHtmlAt htmlRepl.data s.data.length s.data = s.data :=
    replaceOnceWith_id_of_no_trigger _ _ _ matchHtmlAt_none _ _ h2
  have e3 : replaceOnceWith matchBodyAt bodyRepl.data s.data.length s.data = s.data :=
    replaceOnceWith_id_of_no_trigger _ _ _ matchBodyAt_none _ _ h3
  have e4 : replaceOnceWith matchBodyCloseAt bodyProvidersRepl.data s.data.length s.data =
      s.data :=
    replaceOnceWith_id_of_no_trigger _ _ _ matchBodyCloseAt_none _ _ h3
  have hc : patchLayoutChars s.data = s.data := by
    unfold patchLayoutChars
    simp only [e1, e2, e3, e4]
  unfold patchLayout
  rw [hc]

/-- Witness for C2's amended theorem: an anchor-free layout is returned
byte-identical. -/
theorem patchLayout_skips_missing_anchors_witness :
    patchLayout "export default function RootLayout() \x7b return null \x7d\n" =
      "export default function RootLayout() \x7b return null \x7d\n" :=
  patchLayout_skips_missing_anchors
    "export default function RootLayout() \x7b return null \x7d\n"
    (by decide) (by decide) (by decide)
